import Mathlib

/-!
Verification of `src/hotspot/share/memory/iterator.hpp` (visitor / closure
protocol of the HotSpot garbage collector) against its natural-language
specification.  The C++ classes are shallowly embedded: pure member functions
become Lean functions, virtual dispatch becomes explicit record fields, heap
effects become explicit state passing over an abstract state type, and the
fatal assertion machinery becomes an explicit `CallResult` outcome.
-/

set_option linter.unusedVariables false

/-- Identity of a full-width reference slot (`oop*`). -/
abbrev OopSlot := Nat

/-- Identity of a compressed reference slot (`narrowOop*`). -/
abbrev NarrowOopSlot := Nat

/-- Identity of a `Klass*` metadata record. -/
abbrev KlassId := Nat

/-- Identity of a `ClassLoaderData*` metadata record. -/
abbrev CLDId := Nat

/-- Identity of a `HeapWord*` address handed to a block closure. -/
abbrev HeapWordAddr := Nat

/-- Identity of a `CodeBlob*` (a unit of compiled code). -/
abbrev CodeBlobId := Nat

/-- Outcome of invoking a (possibly assertion-guarded) closure operation:
either the operation aborted in a fatal assertion, or it ran to completion
and produced a value.  A `fatalAssert` carries no continuation: the program
terminates, nothing is recovered or retried. -/
inductive CallResult (α : Type) where
  | fatalAssert : CallResult α
  | ok : α → CallResult α
deriving DecidableEq

/-- Modelled from the spec: the assertion-style guards used by this fragment
(`assert`, `guarantee`, `ShouldNotReachHere`) are declared in the runtime's
debugging facilities, outside this fragment.  Spec §7 describes them as
protocol-misuse checks "checked only in debug-mode builds via assertion-style
guards, fatal when triggered, never recoverable or retried".  `debugBuild`
selects the build flavor: in a debug build a failed condition aborts
execution (`fatalAssert`); in a product build the check is absent and the
call proceeds. -/
def assertGuard (debugBuild : Bool) (cond : Bool) : CallResult Unit :=
  if debugBuild && !cond then .fatalAssert else .ok ()

/-- `ExtendedOopClosure::ReferenceIterationMode` (iterator.hpp lines 77-81). -/
inductive ReferenceIterationMode where
  | DO_DISCOVERY
  | DO_DISCOVERED_AND_DISCOVERY
  | DO_FIELDS
deriving DecidableEq

/-! ### `ExtendedOopClosure` base-class member functions (iterator.hpp 61-121)

The bodies below are exactly the ones the header gives the base class; a
default-constructed `ExtendedOopClosure` runs them unoverridden. -/

/-- `virtual ReferenceIterationMode reference_iteration_mode() { return DO_DISCOVERY; }` -/
def ExtendedOopClosure.reference_iteration_mode : ReferenceIterationMode :=
  .DO_DISCOVERY

/-- `bool do_metadata_nv() { return false; }` -/
def ExtendedOopClosure.do_metadata_nv : Bool := false

/-- `virtual bool do_metadata() { return do_metadata_nv(); }` -/
def ExtendedOopClosure.do_metadata : Bool := ExtendedOopClosure.do_metadata_nv

/-- `virtual bool idempotent() { return false; }` -/
def ExtendedOopClosure.idempotent : Bool := false

/-- `void do_klass_nv(Klass* k) { ShouldNotReachHere(); }` -/
def ExtendedOopClosure.do_klass_nv (debugBuild : Bool) (k : KlassId) : CallResult Unit :=
  assertGuard debugBuild false

/-- `virtual void do_klass(Klass* k) { do_klass_nv(k); }` -/
def ExtendedOopClosure.do_klass (debugBuild : Bool) (k : KlassId) : CallResult Unit :=
  ExtendedOopClosure.do_klass_nv debugBuild k

/-- `void do_cld_nv(ClassLoaderData* cld) { ShouldNotReachHere(); }` -/
def ExtendedOopClosure.do_cld_nv (debugBuild : Bool) (cld : CLDId) : CallResult Unit :=
  assertGuard debugBuild false

/-- `virtual void do_cld(ClassLoaderData* cld) { do_cld_nv(cld); }` -/
def ExtendedOopClosure.do_cld (debugBuild : Bool) (cld : CLDId) : CallResult Unit :=
  ExtendedOopClosure.do_cld_nv debugBuild cld

/-! ### `BlkClosureCareful` (iterator.hpp 232-239) -/

/-- `size_t do_blk(HeapWord* addr) { guarantee(false, "call do_blk_careful instead"); return 0; }` -/
def BlkClosureCareful.do_blk (debugBuild : Bool) (addr : HeapWordAddr) : CallResult Nat :=
  match assertGuard debugBuild false with
  | .fatalAssert => .fatalAssert
  | .ok _ => .ok 0

/-! ### `SerializeClosure` (iterator.hpp 330-356)

`reading()` is pure virtual and `const`: a concrete serialization closure
answers a fixed boolean, modelled as a field. -/

structure SerializeClosure where
  reading : Bool

/-- `bool writing() { return !reading(); }` -/
def SerializeClosure.writing (c : SerializeClosure) : Bool := !c.reading

/-! ### `DoNothingClosure` (iterator.hpp 51-56)

The class has no data members, so its values are modelled by a fieldless
structure; its two `do_oop` overrides have empty bodies, i.e. they leave the
entire program state (abstracted as `σ`) untouched. -/

structure DoNothingClosure where

/-- `extern DoNothingClosure do_nothing_cl;` — the shared constant instance. -/
def do_nothing_cl : DoNothingClosure := {}

/-- `virtual void do_oop(oop* p) {}` -/
def DoNothingClosure.do_oop {σ : Type} (c : DoNothingClosure) (s : σ) (p : OopSlot) : σ := s

/-- `virtual void do_oop(narrowOop* p) {}` -/
def DoNothingClosure.do_narrow_oop {σ : Type} (c : DoNothingClosure) (s : σ)
    (p : NarrowOopSlot) : σ := s

/-! ### `SymbolClosure` tagged-symbol accessors (iterator.hpp 358-372)

Pointers are modelled as 64-bit machine words (`intptr_t` patterns) carried
in `Nat`; the bit pattern of `~1` on a 64-bit word is `2 ^ 64 - 2`. -/

/-- Width of `intptr_t` in the embedding. -/
def wordBits : Nat := 64

/-- `static Symbol* load_symbol(Symbol** p) { return (Symbol*)(intptr_t(*p) & ~1); }`
`p` is the current bit pattern stored in the slot. -/
def SymbolClosure.load_symbol (p : Nat) : Nat := p &&& (2 ^ wordBits - 2)

/-- `static void store_symbol(Symbol** p, Symbol* sym) { *p = (Symbol*)(intptr_t(sym) | (intptr_t(*p) & 1)); }`
Returns the new bit pattern of the slot whose old pattern was `p`. -/
def SymbolClosure.store_symbol (p sym : Nat) : Nat := sym ||| (p &&& 1)

/-! ### The `Devirtualizer` dispatch selector (iterator.hpp 374-398)

An `ExtendedOopClosure`-shaped visitor is modelled as a record holding, for
each of the four dispatched operations, both its non-virtual (`_nv`) member
and the member reached by virtual dispatch on the concrete object.  Effects
are state transformers over an abstract state `σ`. -/

structure OopClosureOps (σ : Type) where
  do_oop_nv : σ → OopSlot → σ
  do_oop : σ → OopSlot → σ
  do_narrow_oop_nv : σ → NarrowOopSlot → σ
  do_narrow_oop : σ → NarrowOopSlot → σ
  do_klass_nv : σ → KlassId → σ
  do_klass : σ → KlassId → σ
  do_cld_nv : σ → CLDId → σ
  do_cld : σ → CLDId → σ
  do_metadata_nv : Bool
  do_metadata : Bool

/-- The coherence obligation the header imposes on every closure (iterator.hpp
93-94): "The virtual (without suffix) and the non-virtual (with _nv suffix)
need to be updated together, or else the devirtualization will break."  Every
closure defined in the header satisfies it by defining each virtual member as
a call to its `_nv` twin. -/
def OopClosureOps.coherent {σ : Type} (c : OopClosureOps σ) : Prop :=
  c.do_oop = c.do_oop_nv ∧ c.do_narrow_oop = c.do_narrow_oop_nv ∧
  c.do_klass = c.do_klass_nv ∧ c.do_cld = c.do_cld_nv ∧
  c.do_metadata = c.do_metadata_nv

/-- `Devirtualizer<use_non_virtual_call>::do_oop` on a full-width slot: per the
header's comment (iterator.hpp 374-377), "If use_non_virtual_call is true, the
non-virtual versions are called (E.g. do_oop_nv), otherwise the virtual
versions are called (E.g. do_oop)." -/
def Devirtualizer.do_oop {σ : Type} (useNonVirtualCall : Bool) (c : OopClosureOps σ)
    (s : σ) (p : OopSlot) : σ :=
  if useNonVirtualCall then c.do_oop_nv s p else c.do_oop s p

/-- `Devirtualizer<use_non_virtual_call>::do_oop` on a compressed slot. -/
def Devirtualizer.do_narrow_oop {σ : Type} (useNonVirtualCall : Bool) (c : OopClosureOps σ)
    (s : σ) (p : NarrowOopSlot) : σ :=
  if useNonVirtualCall then c.do_narrow_oop_nv s p else c.do_narrow_oop s p

/-- `Devirtualizer<use_non_virtual_call>::do_klass`. -/
def Devirtualizer.do_klass {σ : Type} (useNonVirtualCall : Bool) (c : OopClosureOps σ)
    (s : σ) (k : KlassId) : σ :=
  if useNonVirtualCall then c.do_klass_nv s k else c.do_klass s k

/-- `Devirtualizer<use_non_virtual_call>::do_cld`. -/
def Devirtualizer.do_cld {σ : Type} (useNonVirtualCall : Bool) (c : OopClosureOps σ)
    (s : σ) (cld : CLDId) : σ :=
  if useNonVirtualCall then c.do_cld_nv s cld else c.do_cld s cld

/-- `Devirtualizer<use_non_virtual_call>::do_metadata`. -/
def Devirtualizer.do_metadata {σ : Type} (useNonVirtualCall : Bool)
    (c : OopClosureOps σ) : Bool :=
  if useNonVirtualCall then c.do_metadata_nv else c.do_metadata

/-- A concrete coherent visitor over `σ = Nat`, used to exercise the dispatch
selector on explicit inputs. -/
def countingClosure : OopClosureOps Nat where
  do_oop_nv := fun s p => s + p
  do_oop := fun s p => s + p
  do_narrow_oop_nv := fun s p => s + 2 * p
  do_narrow_oop := fun s p => s + 2 * p
  do_klass_nv := fun s k => s + 3 * k
  do_klass := fun s k => s + 3 * k
  do_cld_nv := fun s cld => s + 5 * cld
  do_cld := fun s cld => s + 5 * cld
  do_metadata_nv := true
  do_metadata := true

/-! ### `NoHeaderExtendedOopClosure` (iterator.hpp 123-136)

The wrapped `OopClosure*` exposes only its two virtual `do_oop` members;
dispatch through the wrapped pointer is always indirect. -/

structure OopClosureVirtual (σ : Type) where
  do_oop : σ → OopSlot → σ
  do_narrow_oop : σ → NarrowOopSlot → σ

/-- `void do_oop_nv(oop* p) { _wrapped_closure->do_oop(p); }` -/
def NoHeaderExtendedOopClosure.do_oop_nv {σ : Type} (w : OopClosureVirtual σ)
    (s : σ) (p : OopSlot) : CallResult σ :=
  .ok (w.do_oop s p)

/-- `void do_oop_nv(narrowOop* p) { _wrapped_closure->do_oop(p); }` -/
def NoHeaderExtendedOopClosure.do_narrow_oop_nv {σ : Type} (w : OopClosureVirtual σ)
    (s : σ) (p : NarrowOopSlot) : CallResult σ :=
  .ok (w.do_narrow_oop s p)

/-- `void do_oop(oop* p) { assert(false, "Only the _nv versions should be used"); _wrapped_closure->do_oop(p); }` -/
def NoHeaderExtendedOopClosure.do_oop {σ : Type} (debugBuild : Bool)
    (w : OopClosureVirtual σ) (s : σ) (p : OopSlot) : CallResult σ :=
  match assertGuard debugBuild false with
  | .fatalAssert => .fatalAssert
  | .ok _ => .ok (w.do_oop s p)

/-- `void do_oop(narrowOop* p) { assert(false, "Only the _nv versions should be used"); _wrapped_closure->do_oop(p); }` -/
def NoHeaderExtendedOopClosure.do_narrow_oop {σ : Type} (debugBuild : Bool)
    (w : OopClosureVirtual σ) (s : σ) (p : NarrowOopSlot) : CallResult σ :=
  match assertGuard debugBuild false with
  | .fatalAssert => .fatalAssert
  | .ok _ => .ok (w.do_narrow_oop s p)

/-- A concrete wrapped reference visitor over `σ = Nat`, used to exercise the
header-stripping adaptor on explicit inputs. -/
def incClosure : OopClosureVirtual Nat where
  do_oop := fun s p => s + p
  do_narrow_oop := fun s p => s + 2 * p

/-! ### `MetadataAwareOopClosure` (iterator.hpp 164-178)

Its `do_klass_nv` / `do_cld_nv` are declared in the header but their bodies
live in `iterator.inline.hpp`, outside this fragment; they are abstracted as
a record of state transformers.  The header itself defines the Metadata Flag
members and the virtual members, each forwarding to its `_nv` twin. -/

structure MetadataAwareImpl (σ : Type) where
  klass_nv_body : σ → KlassId → σ
  cld_nv_body : σ → CLDId → σ

/-- `bool do_metadata_nv() { return true; }` -/
def MetadataAwareOopClosure.do_metadata_nv : Bool := true

/-- `virtual bool do_metadata() { return do_metadata_nv(); }` -/
def MetadataAwareOopClosure.do_metadata : Bool := MetadataAwareOopClosure.do_metadata_nv

/-- `void do_klass_nv(Klass* k);` — body supplied outside the fragment; it runs
to completion (no assertion guard), producing the externally defined effect. -/
def MetadataAwareOopClosure.do_klass_nv {σ : Type} (impl : MetadataAwareImpl σ)
    (s : σ) (k : KlassId) : CallResult σ :=
  .ok (impl.klass_nv_body s k)

/-- `virtual void do_klass(Klass* k) { do_klass_nv(k); }` -/
def MetadataAwareOopClosure.do_klass {σ : Type} (impl : MetadataAwareImpl σ)
    (s : σ) (k : KlassId) : CallResult σ :=
  MetadataAwareOopClosure.do_klass_nv impl s k

/-- `void do_cld_nv(ClassLoaderData* cld);` — body supplied outside the fragment. -/
def MetadataAwareOopClosure.do_cld_nv {σ : Type} (impl : MetadataAwareImpl σ)
    (s : σ) (cld : CLDId) : CallResult σ :=
  .ok (impl.cld_nv_body s cld)

/-- `virtual void do_cld(ClassLoaderData* cld) { do_cld_nv(cld); }` -/
def MetadataAwareOopClosure.do_cld {σ : Type} (impl : MetadataAwareImpl σ)
    (s : σ) (cld : CLDId) : CallResult σ :=
  MetadataAwareOopClosure.do_cld_nv impl s cld

/-! ### `MarkingCodeBlobClosure` (iterator.hpp 285-291)

The header declares `virtual void do_code_blob(CodeBlob* cb)` with the
comment "Called for each code blob, but at most once per unique blob"; the
body lives in `iterator.cpp`, outside this fragment. -/

/-- State of one traversal pass over code blobs: the per-pass deduplication
markers and a log of the code blobs on which the inner visitor has actually
been invoked during this pass. -/
structure MarkPassState where
  marked : List CodeBlobId
  visits : List CodeBlobId
deriving DecidableEq

/-- Modelled from the spec: `MarkingCodeBlobClosure::do_code_blob` is defined
outside this fragment; spec §4.3 describes it as extending the
code-region-to-reference adaptor "with a per-traversal-pass marker so that a
code region reachable from multiple roots (e.g., multiple thread stacks) is
visited at most once per pass".  Visiting a blob tests its per-pass marker;
only when unmarked does it set the marker and apply the inner visitor (the
invocation is recorded in `visits`). -/
def MarkingCodeBlobClosure.do_code_blob (st : MarkPassState) (cb : CodeBlobId) :
    MarkPassState :=
  if cb ∈ st.marked then st
  else { marked := cb :: st.marked, visits := st.visits ++ [cb] }

/-- One traversal pass: starting from the given set of markers, each root in
turn presents the code blob it reaches to the deduplicating closure. -/
def runTraversalPass (marked : List CodeBlobId) (roots : List CodeBlobId) :
    MarkPassState :=
  roots.foldl MarkingCodeBlobClosure.do_code_blob { marked := marked, visits := [] }

/-- Modelled from the spec: "after the pass boundary resets the marker, the
same region is visitable again exactly once in the next pass" — the pass
boundary clears every per-pass marker. -/
def passBoundaryReset (marked : List CodeBlobId) : List CodeBlobId := []

/-!  ## Theorems -/

/-- Claim C1: for every visitor honoring the header's coherence obligation
(virtual and `_nv` members updated together, iterator.hpp 93-94) and every
input, dispatching a reference visit (full-width or compressed), a
class-metadata visit, a class-loader-metadata visit, or a Metadata-Flag read
through `Devirtualizer<true>` (the `_nv` operations) produces the same
observable effect as dispatching the same call through `Devirtualizer<false>`
(the virtual operations). -/
theorem devirtualizer_paths_agree {σ : Type} (c : OopClosureOps σ)
    (hc : c.coherent) :
    (∀ s p, Devirtualizer.do_oop true c s p = Devirtualizer.do_oop false c s p) ∧
    (∀ s p, Devirtualizer.do_narrow_oop true c s p = Devirtualizer.do_narrow_oop false c s p) ∧
    (∀ s k, Devirtualizer.do_klass true c s k = Devirtualizer.do_klass false c s k) ∧
    (∀ s cld, Devirtualizer.do_cld true c s cld = Devirtualizer.do_cld false c s cld) ∧
    Devirtualizer.do_metadata true c = Devirtualizer.do_metadata false c := by
  obtain ⟨h1, h2, h3, h4, h5⟩ := hc
  refine ⟨?_, ?_, ?_, ?_, ?_⟩ <;>
    simp [Devirtualizer.do_oop, Devirtualizer.do_narrow_oop, Devirtualizer.do_klass,
      Devirtualizer.do_cld, Devirtualizer.do_metadata, h1, h2, h3, h4, h5]

/-- Claim C1 witness: the coherent concrete visitor `countingClosure`
dispatched on explicit inputs. -/
theorem devirtualizer_paths_agree_witness :
    Devirtualizer.do_oop true countingClosure 0 5 = Devirtualizer.do_oop false countingClosure 0 5 ∧
    Devirtualizer.do_klass true countingClosure 1 4 = Devirtualizer.do_klass false countingClosure 1 4 ∧
    Devirtualizer.do_metadata true countingClosure = Devirtualizer.do_metadata false countingClosure := by
  have h := devirtualizer_paths_agree countingClosure
    ⟨rfl, rfl, rfl, rfl, rfl⟩
  exact ⟨h.1 0 5, h.2.2.1 1 4, h.2.2.2.2⟩

/-- Claim C4: a default-constructed `ExtendedOopClosure` reports
Reference-Iteration Mode `DO_DISCOVERY`, reports the Metadata Flag off from
both `do_metadata()` and `do_metadata_nv()`, and reports `idempotent()`
false. -/
theorem extendedOopClosure_defaults :
    ExtendedOopClosure.reference_iteration_mode = ReferenceIterationMode.DO_DISCOVERY ∧
    ExtendedOopClosure.do_metadata = false ∧
    ExtendedOopClosure.do_metadata_nv = false ∧
    ExtendedOopClosure.idempotent = false :=
  ⟨rfl, rfl, rfl, rfl⟩

/-- Claim C5: `MetadataAwareOopClosure` reports the Metadata Flag on by
default from both `do_metadata()` and `do_metadata_nv()`, and supplies
default implementations of `do_klass` and `do_cld`: both run to completion
(no assertion guard), forwarding to the externally supplied `_nv` bodies. -/
theorem metadataAware_defaults {σ : Type} (impl : MetadataAwareImpl σ) :
    MetadataAwareOopClosure.do_metadata = true ∧
    MetadataAwareOopClosure.do_metadata_nv = true ∧
    (∀ s k, MetadataAwareOopClosure.do_klass impl s k = .ok (impl.klass_nv_body s k)) ∧
    (∀ s cld, MetadataAwareOopClosure.do_cld impl s cld = .ok (impl.cld_nv_body s cld)) :=
  ⟨rfl, rfl, fun s k => rfl, fun s cld => rfl⟩

/-- Claim C6: calling `do_klass`/`do_cld` on a plain `ExtendedOopClosure`
(which declared no metadata capability), or the plain `do_blk` on
`BlkClosureCareful`, is a protocol-misuse defect: the guard fires only in
debug-mode builds (in a product build the call proceeds unchecked), it is
fatal when triggered, and a triggered guard never yields any result to
recover or retry from. -/
theorem capability_misuse_fatal (k : KlassId) (cld : CLDId) (addr : HeapWordAddr) :
    ExtendedOopClosure.do_klass true k = CallResult.fatalAssert ∧
    ExtendedOopClosure.do_cld true cld = CallResult.fatalAssert ∧
    BlkClosureCareful.do_blk true addr = CallResult.fatalAssert ∧
    ExtendedOopClosure.do_klass false k = CallResult.ok () ∧
    ExtendedOopClosure.do_cld false cld = CallResult.ok () ∧
    BlkClosureCareful.do_blk false addr = CallResult.ok 0 ∧
    (∀ v, ExtendedOopClosure.do_klass true k ≠ CallResult.ok v) ∧
    (∀ v, BlkClosureCareful.do_blk true addr ≠ CallResult.ok v) := by
  refine ⟨rfl, rfl, rfl, rfl, rfl, rfl, ?_, ?_⟩ <;> intro v h <;>
    simp [ExtendedOopClosure.do_klass, ExtendedOopClosure.do_klass_nv,
      BlkClosureCareful.do_blk, assertGuard] at h

/-- Claim C7 counterexample: the claim says the header-stripping adaptor
"must be called through the dynamic (virtual) path only", its non-virtual
path being bypassed.  The code guards the opposite direction: at the concrete
wrapped visitor `incClosure`, state `0`, slot `5`, in a debug build the
dynamic (virtual) `do_oop` aborts in the assertion
("Only the _nv versions should be used") while the non-virtual `do_oop_nv`
completes normally. -/
theorem noHeader_dynamic_only_false :
    NoHeaderExtendedOopClosure.do_oop true incClosure 0 5 = CallResult.fatalAssert ∧
    NoHeaderExtendedOopClosure.do_oop_nv incClosure 0 5 = CallResult.ok 5 := by
  exact ⟨rfl, rfl⟩

/-- Claim C7 (amended): the Header-Stripping Adaptor wraps a plain Reference
Visitor behind the Extended Reference Visitor contract, and must be called
through the STATIC (non-virtual) path only: its virtual `do_oop` operations
are assertion-guarded (fatal in debug builds), while the `_nv` operations
complete normally; in both cases the inner forwarding call is the wrapped
visitor's virtual `do_oop` — always an indirect call — on the same slot. -/
theorem noHeader_static_path_only {σ : Type} (w : OopClosureVirtual σ) :
    (∀ s p, NoHeaderExtendedOopClosure.do_oop_nv w s p = .ok (w.do_oop s p)) ∧
    (∀ s p, NoHeaderExtendedOopClosure.do_narrow_oop_nv w s p = .ok (w.do_narrow_oop s p)) ∧
    (∀ s p, NoHeaderExtendedOopClosure.do_oop true w s p = CallResult.fatalAssert) ∧
    (∀ s p, NoHeaderExtendedOopClosure.do_narrow_oop true w s p = CallResult.fatalAssert) :=
  ⟨fun s p => rfl, fun s p => rfl, fun s p => rfl, fun s p => rfl⟩

/-- Claim C8: the Null/Discard Visitor is stateless — every value of
`DoNothingClosure` is the shared constant `do_nothing_cl` — and applying its
visit operation to any full-width or compressed reference slot leaves the
whole program state (hence the slot's contents and everything else)
unchanged. -/
theorem doNothing_is_noop :
    (∀ c : DoNothingClosure, c = do_nothing_cl) ∧
    (∀ (σ : Type) (c : DoNothingClosure) (s : σ) (p : OopSlot), c.do_oop s p = s) ∧
    (∀ (σ : Type) (c : DoNothingClosure) (s : σ) (p : NarrowOopSlot),
      c.do_narrow_oop s p = s) :=
  ⟨fun c => rfl, fun σ c s p => rfl, fun σ c s p => rfl⟩

/-- Claim C9: for every serialization closure, `writing()` returns true
exactly when `reading()` returns false; the closure is in exactly one of the
two modes. -/
theorem serialize_writing_iff_not_reading (c : SerializeClosure) :
    (c.writing = true ↔ c.reading = false) ∧
    (c.writing = true ∨ c.reading = true) ∧
    ¬(c.writing = true ∧ c.reading = true) := by
  obtain ⟨b⟩ := c
  cases b <;> simp [SerializeClosure.writing]

/-- Helper for Claim C2: a word with the low bit clear is untouched by
masking with `~1` (the 64-bit pattern `2 ^ 64 - 2`), provided it fits in the
word. -/
theorem land_mask_of_even {sym : Nat} (hw : sym < 2 ^ 64) (h0 : Nat.testBit sym 0 = false) :
    sym &&& (2 ^ 64 - 2) = sym := by
  apply Nat.eq_of_testBit_eq
  intro i
  have hmask : Nat.testBit (2 ^ 64 - 2) i = (decide (i < 64) && !Nat.testBit 1 i) := by
    have h := Nat.testBit_two_pow_sub_succ (x := 1) (n := 64) (by norm_num) i
    norm_num at h
    exact h
  rw [Nat.testBit_and, hmask]
  rcases Nat.eq_zero_or_pos i with hi | hi
  · subst hi
    simp [h0]
  · have h1i : Nat.testBit 1 i = false := by
      rcases Nat.exists_eq_add_of_lt hi with ⟨j, hj⟩
      subst hj
      simp [Nat.testBit_add_one]
    by_cases hlt : i < 64
    · simp [h1i, hlt]
    · have hhigh : Nat.testBit sym i = false :=
        Nat.testBit_lt_two_pow
          (lt_of_lt_of_le hw (Nat.pow_le_pow_right (by norm_num) (Nat.le_of_not_lt hlt)))

      simp [h1i, hlt, hhigh]

/-- Helper for Claim C2: `or`-ing in a flag confined to bit 0 changes no bit
above bit 0. -/
theorem lor_flag_testBit (sym p i : Nat) :
    Nat.testBit (sym ||| (p &&& 1)) i =
      (Nat.testBit sym i || (Nat.testBit p i && Nat.testBit 1 i)) := by
  rw [Nat.testBit_or, Nat.testBit_and]

/-- Claim C2: for every symbol slot (old bit pattern `p`) and every reference
value `sym` (a word-sized, 2-aligned `Symbol*`, i.e. its low tag bit is
clear), `load_symbol` after `store_symbol p sym` returns `sym` — whether the
slot's low side-flag bit was previously set or clear — and `store_symbol`
leaves the slot's low side-flag bit itself unchanged. -/
theorem symbol_load_after_store (p sym : Nat) (hw : sym < 2 ^ wordBits)
    (halign : sym &&& 1 = 0) :
    SymbolClosure.load_symbol (SymbolClosure.store_symbol p sym) = sym ∧
    SymbolClosure.store_symbol p sym &&& 1 = p &&& 1 := by
  have hmod : sym % 2 = 0 := by rwa [Nat.and_one_is_mod] at halign
  have h0 : Nat.testBit sym 0 = false := by
    simp [Nat.testBit_zero, hmod]
  rw [wordBits] at hw
  constructor
  · rw [SymbolClosure.load_symbol, SymbolClosure.store_symbol, wordBits]
    have hflag : (sym ||| (p &&& 1)) &&& (2 ^ 64 - 2) = sym &&& (2 ^ 64 - 2) := by
      apply Nat.eq_of_testBit_eq
      intro i
      cases i with
      | zero =>
        have hm0 : Nat.testBit (2 ^ 64 - 2) 0 = false := by
          rw [Nat.testBit_zero]
          norm_num
        simp [Nat.testBit_and, hm0]
      | succ j =>
        have h1i : Nat.testBit 1 (j + 1) = false := by simp [Nat.testBit_add_one]
        rw [Nat.testBit_and, Nat.testBit_and, lor_flag_testBit, h1i]
        simp
    rw [hflag, land_mask_of_even hw h0]
  · rw [SymbolClosure.store_symbol]
    have h11 : (1 : Nat) &&& 1 = 1 := by decide
    calc (sym ||| (p &&& 1)) &&& 1
        = (sym &&& 1) ||| ((p &&& 1) &&& 1) := Nat.and_distrib_right sym (p &&& 1) 1
      _ = (p &&& 1) &&& 1 := by rw [halign, Nat.zero_or]
      _ = p &&& 1 := by rw [Nat.and_assoc, h11]

/-- Claim C2 witness: slot pattern 13 (side flag set) and the aligned symbol
value 6: loading after storing returns 6 and the flag bit is preserved. -/
theorem symbol_load_after_store_witness :
    SymbolClosure.load_symbol (SymbolClosure.store_symbol 13 6) = 6 ∧
    SymbolClosure.store_symbol 13 6 &&& 1 = 13 &&& 1 :=
  symbol_load_after_store 13 6 (by norm_num [wordBits]) (by decide)

/-- Helper for Claim C3: folding the deduplicating closure over a root list
adds exactly one inner-visitor invocation for a blob that occurs among the
roots and is not yet marked, and none for a blob already marked. -/
theorem mark_count_foldl (roots : List CodeBlobId) (st : MarkPassState) (b : CodeBlobId) :
    (roots.foldl MarkingCodeBlobClosure.do_code_blob st).visits.count b =
      st.visits.count b + (if b ∈ roots ∧ b ∉ st.marked then 1 else 0) := by
  induction roots generalizing st with
  | nil => simp
  | cons r rs ih =>
    rw [List.foldl_cons]
    by_cases hr : r ∈ st.marked
    · have hstep : MarkingCodeBlobClosure.do_code_blob st r = st := by
        simp [MarkingCodeBlobClosure.do_code_blob, hr]
      rw [hstep, ih st]
      have hcond : (b ∈ r :: rs ∧ b ∉ st.marked) ↔ (b ∈ rs ∧ b ∉ st.marked) := by
        constructor
        · rintro ⟨hmem, hnm⟩
          rcases List.mem_cons.mp hmem with h | h
          · exact absurd (by rw [h]; exact hr) hnm
          · exact ⟨h, hnm⟩
        · rintro ⟨hmem, hnm⟩
          exact ⟨List.mem_cons_of_mem _ hmem, hnm⟩
      rw [if_congr hcond rfl rfl]
    · have hstep : MarkingCodeBlobClosure.do_code_blob st r =
          { marked := r :: st.marked, visits := st.visits ++ [r] } := by
        simp [MarkingCodeBlobClosure.do_code_blob, hr]
      rw [hstep, ih]
      by_cases hb : b = r
      · subst hb
        have hnotin : ¬ (b ∈ rs ∧ b ∉ b :: st.marked) := by
          rintro ⟨hmem, hnm⟩
          exact hnm (List.mem_cons_self b st.marked)
        simp [hnotin, hr, List.count_append]
      · have hiff : (b ∈ rs ∧ b ∉ r :: st.marked) ↔ (b ∈ r :: rs ∧ b ∉ st.marked) := by
          constructor
          · rintro ⟨hmem, hnm⟩
            refine ⟨List.mem_cons_of_mem _ hmem, fun hm => hnm (List.mem_cons_of_mem _ hm)⟩
          · rintro ⟨hmem, hnm⟩
            rcases List.mem_cons.mp hmem with h | h
            · exact absurd h hb
            · refine ⟨h, fun hm => ?_⟩
              rcases List.mem_cons.mp hm with h2 | h2
              · exact hb h2
              · exact hnm h2
        have hcnt : (st.visits ++ [r]).count b = st.visits.count b := by
          simp [List.count_append, List.count_singleton, hb]
        rw [hcnt, if_congr hiff rfl rfl]

/-- Claim C3: within one traversal pass starting with no marks, a code blob
reachable from any number of independent roots (appearing anywhere in the
root list) has the inner visitor applied to it exactly once; after the pass
boundary resets the per-pass markers, the same blob is again visited exactly
once in the next pass. -/
theorem marking_visits_once_per_pass (roots1 roots2 : List CodeBlobId) (b : CodeBlobId)
    (h1 : b ∈ roots1) (h2 : b ∈ roots2) :
    (runTraversalPass [] roots1).visits.count b = 1 ∧
    (runTraversalPass (passBoundaryReset (runTraversalPass [] roots1).marked)
      roots2).visits.count b = 1 := by
  constructor
  · rw [runTraversalPass, mark_count_foldl]
    simp [h1]
  · rw [runTraversalPass, passBoundaryReset, mark_count_foldl]
    simp [h2]

/-- Claim C3 witness: blob 7 reachable from two of three roots in the first
pass and from one root in the second pass; each pass yields exactly one inner
visit. -/
theorem marking_visits_once_per_pass_witness :
    (runTraversalPass [] [7, 3, 7]).visits.count 7 = 1 ∧
    (runTraversalPass (passBoundaryReset (runTraversalPass [] [7, 3, 7]).marked)
      [7]).visits.count 7 = 1 :=
  marking_visits_once_per_pass [7, 3, 7] [7] 7 (by decide) (by decide)

/-- Claim C10: both the non-virtual operations (`do_oop_nv`) and the
assertion-guarded virtual operations (`do_oop`) of the header-stripping
adaptor, on both full-width and compressed slots, forward to the same wrapped
visitor's virtual `do_oop` with the same slot: whenever the assertion does
not abort (a product build), the disallowed virtual path produces the
identical effect instead of dropping the visit. -/
theorem noHeader_both_paths_forward_identically {σ : Type} (w : OopClosureVirtual σ) :
    (∀ s p, NoHeaderExtendedOopClosure.do_oop_nv w s p = .ok (w.do_oop s p)) ∧
    (∀ s p, NoHeaderExtendedOopClosure.do_oop false w s p = .ok (w.do_oop s p)) ∧
    (∀ s p, NoHeaderExtendedOopClosure.do_narrow_oop_nv w s p = .ok (w.do_narrow_oop s p)) ∧
    (∀ s p, NoHeaderExtendedOopClosure.do_narrow_oop false w s p = .ok (w.do_narrow_oop s p)) ∧
    (∀ s p, NoHeaderExtendedOopClosure.do_oop false w s p =
      NoHeaderExtendedOopClosure.do_oop_nv w s p) ∧
    (∀ s p, NoHeaderExtendedOopClosure.do_narrow_oop false w s p =
      NoHeaderExtendedOopClosure.do_narrow_oop_nv w s p) :=
  ⟨fun s p => rfl, fun s p => rfl, fun s p => rfl, fun s p => rfl,
   fun s p => rfl, fun s p => rfl⟩
